import Mathlib

/-!
Shallow embedding of the retry/facade layer of the OpenAI client repository:
`openai/api_resources/chat_completion.py`, `openai/api_resources/moderation.py`
and `openai/logger.py`, together with theorems checking the specification's
claims about them.

The dispatcher (`super().create(...)` / `super().acreate(...)`) and the wall
clock (`time.time()`) are modelled as oracles indexed by invocation number:
`dispatch k` is the outcome of the k-th dispatcher invocation (0-based) and
`checkTime k` is the `time.time()` reading taken inside the `except TryAgain`
handler after the k-th invocation.  `start` is the `time.time()` reading taken
at the top of `create`.  The `while True` loop is embedded with a fuel
parameter: `RunResult.outOfFuel a` means the loop is still running after `a`
dispatcher invocations.
-/

/-- Outcome of one invocation of the underlying dispatcher `create`:
it returns a value, raises `TryAgain`, or raises some other error
(e.g. `AuthenticationError`). -/
inductive DispatchOutcome (α ε : Type) where
  | success (v : α)
  | tryAgain
  | otherError (e : ε)
  deriving DecidableEq, Repr

/-- Observable result of running the retry loop with a given amount of fuel.
Each constructor records `attempts`, the number of dispatcher invocations
performed. -/
inductive RunResult (α ε : Type) where
  | ok (v : α) (attempts : Nat)
  | raisedTryAgain (attempts : Nat)
  | raisedOther (e : ε) (attempts : Nat)
  | outOfFuel (attempts : Nat)
  deriving DecidableEq, Repr

/-- Number of dispatcher invocations a run performed. -/
def RunResult.attemptsOf {α ε : Type} : RunResult α ε → Nat
  | .ok _ a => a
  | .raisedTryAgain a => a
  | .raisedOther _ a => a
  | .outOfFuel a => a

/-- The body of `ChatCompletion.create` (chat_completion.py, lines 33-52):
`start = time.time()`, then `while True:` try the dispatcher; on success
return; on `TryAgain`, `if timeout is not None and time.time() > start +
timeout: raise`, else log and loop; any other error propagates.  `k` is the
index of the next dispatcher invocation; the top-level call has `k = 0`. -/
def ChatCompletion.create {α ε : Type} (dispatch : Nat → DispatchOutcome α ε)
    (checkTime : Nat → ℚ) (timeout : Option ℚ) (start : ℚ) :
    Nat → Nat → RunResult α ε
  | k, 0 => .outOfFuel k
  | k, fuel + 1 =>
    match dispatch k with
    | .success v => .ok v (k + 1)
    | .otherError e => .raisedOther e (k + 1)
    | .tryAgain =>
      match timeout with
      | some t =>
        if checkTime k > start + t then .raisedTryAgain (k + 1)
        else ChatCompletion.create dispatch checkTime (some t) start (k + 1) fuel
      | none => ChatCompletion.create dispatch checkTime none start (k + 1) fuel

/-- The body of `ChatCompletion.acreate` (chat_completion.py, lines 76-93):
identical control flow to `create`, with `await super().acreate(...)` as the
dispatcher invocation. -/
def ChatCompletion.acreate {α ε : Type} (dispatch : Nat → DispatchOutcome α ε)
    (checkTime : Nat → ℚ) (timeout : Option ℚ) (start : ℚ) :
    Nat → Nat → RunResult α ε
  | k, 0 => .outOfFuel k
  | k, fuel + 1 =>
    match dispatch k with
    | .success v => .ok v (k + 1)
    | .otherError e => .raisedOther e (k + 1)
    | .tryAgain =>
      match timeout with
      | some t =>
        if checkTime k > start + t then .raisedTryAgain (k + 1)
        else ChatCompletion.acreate dispatch checkTime (some t) start (k + 1) fuel
      | none => ChatCompletion.acreate dispatch checkTime none start (k + 1) fuel

/-- Helper for C1: with no timeout, if the next `n` invocations raise
`TryAgain` and invocation `k + n` succeeds with `v`, the loop returns `v`
after `k + n + 1` total invocations. -/
theorem ChatCompletion.create_tryAgain_then_success {α ε : Type}
    (dispatch : Nat → DispatchOutcome α ε) (checkTime : Nat → ℚ) (start : ℚ)
    (v : α) :
    ∀ (fuel n k : Nat), n < fuel →
    (∀ j, j < n → dispatch (k + j) = .tryAgain) →
    dispatch (k + n) = .success v →
    ChatCompletion.create dispatch checkTime none start k fuel =
      .ok v (k + n + 1) := by
  intro fuel
  induction fuel with
  | zero => intro n k hn; omega
  | succ f ih =>
    intro n k hn htry hsucc
    cases n with
    | zero =>
      simp only [ChatCompletion.create]
      rw [show k + 0 = k from rfl] at hsucc
      rw [hsucc]
    | succ m =>
      have h0 : dispatch k = .tryAgain := by
        have := htry 0 (Nat.succ_pos m)
        simpa using this
      simp only [ChatCompletion.create, h0]
      have hrec := ih m (k + 1) (by omega)
        (fun j hj => by
          have := htry (j + 1) (by omega)
          rw [show k + (j + 1) = k + 1 + j by omega] at this
          exact this)
        (by rw [show k + 1 + m = k + (m + 1) by omega]; exact hsucc)
      rw [hrec]
      congr 1
      omega

/-- C1: with `timeout = None`, if the dispatcher raises `TryAgain` on each of
its first N invocations and succeeds with `v` on invocation N+1, then
`ChatCompletion.create` returns `v` and the dispatcher is invoked exactly
N+1 times (given enough fuel for the loop to reach that invocation). -/
theorem chat_create_retries_until_success {α ε : Type}
    (dispatch : Nat → DispatchOutcome α ε) (checkTime : Nat → ℚ) (start : ℚ)
    (N fuel : Nat) (v : α)
    (hfuel : N < fuel)
    (htry : ∀ j, j < N → dispatch j = .tryAgain)
    (hsucc : dispatch N = .success v) :
    ChatCompletion.create dispatch checkTime none start 0 fuel =
      .ok v (N + 1) := by
  have := ChatCompletion.create_tryAgain_then_success dispatch checkTime start v
    fuel N 0 hfuel (fun j hj => by simpa using htry j hj) (by simpa using hsucc)
  simpa using this

/-- Concrete instance of C1: a dispatcher that raises `TryAgain` twice then
returns 42 makes the loop return 42 after exactly 3 invocations. -/
theorem chat_create_retries_until_success_witness :
    ChatCompletion.create
      (fun k => if k < 2 then DispatchOutcome.tryAgain
                else .success 42 : Nat → DispatchOutcome Nat Unit)
      (fun _ => (0 : ℚ)) none 0 0 5 = RunResult.ok 42 3 :=
  chat_create_retries_until_success
    (fun k => if k < 2 then DispatchOutcome.tryAgain
              else .success 42 : Nat → DispatchOutcome Nat Unit)
    (fun _ => (0 : ℚ)) 0 2 5 42 (by omega)
    (fun j hj => by
      have : j < 2 := hj
      simp [this])
    (by simp)

/-- Helper for C2: if every invocation raises `TryAgain`, the first `n` time
checks are within the deadline and check `k + n` exceeds it, the loop raises
`TryAgain` after `k + n + 1` invocations. -/
theorem ChatCompletion.create_tryAgain_until_deadline {α ε : Type}
    (dispatch : Nat → DispatchOutcome α ε) (checkTime : Nat → ℚ)
    (t start : ℚ) (halways : ∀ j, dispatch j = .tryAgain) :
    ∀ (fuel n k : Nat), n < fuel →
    (∀ j, j < n → checkTime (k + j) ≤ start + t) →
    checkTime (k + n) > start + t →
    ChatCompletion.create dispatch checkTime (some t) start k fuel =
      .raisedTryAgain (k + n + 1) := by
  intro fuel
  induction fuel with
  | zero => intro n k hn; omega
  | succ f ih =>
    intro n k hn hwithin hover
    cases n with
    | zero =>
      simp only [ChatCompletion.create, halways k]
      rw [show k + 0 = k from rfl] at hover
      simp [hover]
    | succ m =>
      have h0 : checkTime k ≤ start + t := by
        have := hwithin 0 (Nat.succ_pos m)
        simpa using this
      simp only [ChatCompletion.create, halways k]
      rw [if_neg (by exact not_lt.mpr h0)]
      have hrec := ih m (k + 1) (by omega)
        (fun j hj => by
          have := hwithin (j + 1) (by omega)
          rw [show k + (j + 1) = k + 1 + j by omega] at this
          exact this)
        (by rw [show k + 1 + m = k + (m + 1) by omega]; exact hover)
      rw [hrec]
      congr 1
      omega

/-- C2: with `timeout = T` and a dispatcher that always raises `TryAgain`,
`ChatCompletion.create` propagates `TryAgain` exactly at the first invocation
whose handler-time reading exceeds `start + T` (strictly), and at none of the
earlier invocations, whose readings were at most `start + T`. -/
theorem chat_create_timeout_propagation {α ε : Type}
    (dispatch : Nat → DispatchOutcome α ε) (checkTime : Nat → ℚ)
    (t start : ℚ) (N fuel : Nat)
    (halways : ∀ j, dispatch j = .tryAgain)
    (hfuel : N < fuel)
    (hwithin : ∀ j, j < N → checkTime j ≤ start + t)
    (hover : checkTime N > start + t) :
    ChatCompletion.create dispatch checkTime (some t) start 0 fuel =
      .raisedTryAgain (N + 1) := by
  have := ChatCompletion.create_tryAgain_until_deadline dispatch checkTime
    t start halways fuel N 0 hfuel
    (fun j hj => by simpa using hwithin j hj) (by simpa using hover)
  simpa using this

/-- Concrete instance of C2: timeout 1 starting at time 0, clock readings
0, 1, 5 after the three `TryAgain`s: the loop retries past readings 0 and 1
(elapsed at most 1) and propagates `TryAgain` at reading 5, after exactly 3
dispatcher invocations. -/
theorem chat_create_timeout_propagation_witness :
    ChatCompletion.create
      (fun _ => DispatchOutcome.tryAgain : Nat → DispatchOutcome Nat Unit)
      (fun k => if k = 0 then 0 else if k = 1 then 1 else 5)
      (some 1) 0 0 10 = RunResult.raisedTryAgain 3 :=
  chat_create_timeout_propagation
    (fun _ => DispatchOutcome.tryAgain : Nat → DispatchOutcome Nat Unit)
    (fun k => if k = 0 then 0 else if k = 1 then 1 else 5)
    1 0 2 10 (fun _ => rfl) (by omega)
    (fun j hj => by
      interval_cases j <;> norm_num)
    (by norm_num)

/-- C3: an error other than `TryAgain` raised by the dispatcher on its first
invocation propagates immediately: the loop result is that error after
exactly one dispatcher invocation, for any timeout. -/
theorem chat_create_other_error_propagates {α ε : Type}
    (dispatch : Nat → DispatchOutcome α ε) (checkTime : Nat → ℚ)
    (timeout : Option ℚ) (start : ℚ) (fuel : Nat) (e : ε)
    (hfuel : 1 ≤ fuel)
    (herr : dispatch 0 = .otherError e) :
    ChatCompletion.create dispatch checkTime timeout start 0 fuel =
      .raisedOther e 1 := by
  obtain ⟨f, rfl⟩ : ∃ f, fuel = f + 1 := ⟨fuel - 1, by omega⟩
  simp only [ChatCompletion.create, herr]

/-- Concrete instance of C3: a dispatcher raising `AuthenticationError`
(modelled as the other-error payload "AuthenticationError") on the first call
propagates it with exactly one invocation. -/
theorem chat_create_other_error_propagates_witness :
    ChatCompletion.create
      (fun _ => DispatchOutcome.otherError "AuthenticationError" :
        Nat → DispatchOutcome Nat String)
      (fun _ => (0 : ℚ)) none 0 0 7 =
      RunResult.raisedOther "AuthenticationError" 1 :=
  chat_create_other_error_propagates
    (fun _ => DispatchOutcome.otherError "AuthenticationError" :
      Nat → DispatchOutcome Nat String)
    (fun _ => (0 : ℚ)) none 0 7 "AuthenticationError" (by omega) rfl

/-- Helper for C5: with no timeout the loop never raises `TryAgain`,
whatever the dispatcher and clock do. -/
theorem ChatCompletion.create_no_timeout_never_raises_tryAgain {α ε : Type}
    (dispatch : Nat → DispatchOutcome α ε) (checkTime : Nat → ℚ)
    (start : ℚ) :
    ∀ (fuel k a : Nat),
    ChatCompletion.create dispatch checkTime none start k fuel ≠
      .raisedTryAgain a := by
  intro fuel
  induction fuel with
  | zero => intro k a h; simp only [ChatCompletion.create] at h; cases h
  | succ f ih =>
    intro k a h
    simp only [ChatCompletion.create] at h
    cases hd : dispatch k <;> rw [hd] at h
    · cases h
    · exact ih (k + 1) a h
    · cases h

/-- Helper for C5: with no timeout and a dispatcher that always raises
`TryAgain`, every amount of fuel is consumed with one invocation per unit:
the loop never terminates (no attempt cap). -/
theorem ChatCompletion.create_no_timeout_all_tryAgain {α ε : Type}
    (dispatch : Nat → DispatchOutcome α ε) (checkTime : Nat → ℚ)
    (start : ℚ) (halways : ∀ j, dispatch j = .tryAgain) :
    ∀ (fuel k : Nat),
    ChatCompletion.create dispatch checkTime none start k fuel =
      .outOfFuel (k + fuel) := by
  intro fuel
  induction fuel with
  | zero => intro k; rfl
  | succ f ih =>
    intro k
    simp only [ChatCompletion.create, halways k]
    rw [ih (k + 1)]
    congr 1
    omega

/-- C5: with `timeout = None` the wrapper never propagates `TryAgain`: for
every dispatcher and clock the run result is never `raisedTryAgain`, and when
the dispatcher always raises `TryAgain` the loop just keeps invoking it, one
invocation per unit of fuel, with no attempt cap. -/
theorem chat_create_no_timeout_unbounded_retry {α ε : Type}
    (dispatch : Nat → DispatchOutcome α ε) (checkTime : Nat → ℚ)
    (start : ℚ) :
    (∀ (fuel a : Nat),
      ChatCompletion.create dispatch checkTime none start 0 fuel ≠
        .raisedTryAgain a) ∧
    ((∀ j, dispatch j = .tryAgain) → ∀ fuel : Nat,
      ChatCompletion.create dispatch checkTime none start 0 fuel =
        .outOfFuel fuel) := by
  constructor
  · intro fuel a
    exact ChatCompletion.create_no_timeout_never_raises_tryAgain
      dispatch checkTime start fuel 0 a
  · intro halways fuel
    have := ChatCompletion.create_no_timeout_all_tryAgain
      dispatch checkTime start halways fuel 0
    simpa using this

/-- C8: the deadline is consulted only after a `TryAgain` is caught, never
before the first attempt: for every timeout (including zero and negative
values) at least one dispatcher invocation is performed, and if the first
invocation succeeds the loop returns its value with exactly one invocation
even when every clock reading is already past the deadline. -/
theorem chat_create_first_attempt_unconditional {α ε : Type}
    (dispatch : Nat → DispatchOutcome α ε) (checkTime : Nat → ℚ)
    (timeout : Option ℚ) (start : ℚ) (fuel : Nat)
    (hfuel : 1 ≤ fuel) :
    1 ≤ (ChatCompletion.create dispatch checkTime timeout start 0
          fuel).attemptsOf ∧
    (∀ v : α, dispatch 0 = .success v →
      ChatCompletion.create dispatch checkTime timeout start 0 fuel =
        .ok v 1) := by
  obtain ⟨f, rfl⟩ : ∃ f, fuel = f + 1 := ⟨fuel - 1, by omega⟩
  constructor
  · have hmono : ∀ (fl k : Nat),
        k ≤ (ChatCompletion.create dispatch checkTime timeout start k
              fl).attemptsOf := by
      intro fl
      induction fl with
      | zero => intro k; simp [ChatCompletion.create, RunResult.attemptsOf]
      | succ g ih =>
        intro k
        simp only [ChatCompletion.create]
        cases dispatch k
        · simp [RunResult.attemptsOf]
        · cases timeout with
          | none => exact le_trans (by omega) (ih (k + 1))
          | some t =>
            by_cases hc : checkTime k > start + t
            · simp [hc, RunResult.attemptsOf]
            · simp only [if_neg hc]
              exact le_trans (by omega) (ih (k + 1))
        · simp [RunResult.attemptsOf]
    simp only [ChatCompletion.create]
    cases dispatch 0
    · simp [RunResult.attemptsOf]
    · cases timeout with
      | none => exact le_trans (by omega) (hmono f 1)
      | some t =>
        by_cases hc : checkTime 0 > start + t
        · simp [hc, RunResult.attemptsOf]
        · simp only [if_neg hc]
          exact le_trans (by omega) (hmono f 1)
    · simp [RunResult.attemptsOf]
  · intro v hv
    simp only [ChatCompletion.create, hv]

/-- Concrete instance of C8: timeout -3 (already expired before the call) and
clock readings far past the deadline still let the first invocation run; it
succeeds and is the only invocation. -/
theorem chat_create_first_attempt_unconditional_witness :
    1 ≤ (ChatCompletion.create
          (fun _ => DispatchOutcome.success 7 : Nat → DispatchOutcome Nat Unit)
          (fun _ => (100 : ℚ)) (some (-3)) 0 0 4).attemptsOf ∧
    ChatCompletion.create
      (fun _ => DispatchOutcome.success 7 : Nat → DispatchOutcome Nat Unit)
      (fun _ => (100 : ℚ)) (some (-3)) 0 0 4 = RunResult.ok 7 1 := by
  have h := chat_create_first_attempt_unconditional
    (fun _ => DispatchOutcome.success 7 : Nat → DispatchOutcome Nat Unit)
    (fun _ => (100 : ℚ)) (some (-3)) 0 4 (by omega)
  exact ⟨h.1, h.2 7 rfl⟩

/-- Events emitted by the body of the retry loop, in program order.
`invoke k` is the dispatcher call (the awaited call on the async path);
`logInfo` is `util.log_info("Waiting for model to warm up", error=e)`.
`sleep` and `yieldPoint` are the suspension steps the specification describes
between attempts; the loop bodies in chat_completion.py contain no
`time.sleep` and no explicit yield, so no construct of the source emits
them. -/
inductive LoopEvent where
  | invoke (k : Nat)
  | logInfo
  | sleep
  | yieldPoint
  deriving DecidableEq, Repr

/-- Event trace of `ChatCompletion.create` (chat_completion.py, lines 35-52):
each iteration emits the dispatcher invocation, then on `TryAgain` either
terminates (deadline exceeded) or emits the diagnostic log and continues
directly with the next invocation. -/
def ChatCompletion.createTrace {α ε : Type}
    (dispatch : Nat → DispatchOutcome α ε) (checkTime : Nat → ℚ)
    (timeout : Option ℚ) (start : ℚ) : Nat → Nat → List LoopEvent
  | _, 0 => []
  | k, fuel + 1 =>
    LoopEvent.invoke k ::
    match dispatch k with
    | .success _ => []
    | .otherError _ => []
    | .tryAgain =>
      match timeout with
      | some t =>
        if checkTime k > start + t then []
        else LoopEvent.logInfo ::
          ChatCompletion.createTrace dispatch checkTime (some t) start
            (k + 1) fuel
      | none =>
        LoopEvent.logInfo ::
          ChatCompletion.createTrace dispatch checkTime none start (k + 1) fuel

/-- Event trace of `ChatCompletion.acreate` (chat_completion.py, lines
76-93): same statement sequence as the synchronous body, with the awaited
dispatcher call as the invocation event. -/
def ChatCompletion.acreateTrace {α ε : Type}
    (dispatch : Nat → DispatchOutcome α ε) (checkTime : Nat → ℚ)
    (timeout : Option ℚ) (start : ℚ) : Nat → Nat → List LoopEvent
  | _, 0 => []
  | k, fuel + 1 =>
    LoopEvent.invoke k ::
    match dispatch k with
    | .success _ => []
    | .otherError _ => []
    | .tryAgain =>
      match timeout with
      | some t =>
        if checkTime k > start + t then []
        else LoopEvent.logInfo ::
          ChatCompletion.acreateTrace dispatch checkTime (some t) start
            (k + 1) fuel
      | none =>
        LoopEvent.logInfo ::
          ChatCompletion.acreateTrace dispatch checkTime none start (k + 1) fuel

/-- Whether an event is a dispatcher invocation. -/
def LoopEvent.isInvoke : LoopEvent → Bool
  | .invoke _ => true
  | _ => false

/-- Whether an event is a suspension step (blocking sleep or cooperative
yield). -/
def LoopEvent.isSuspend : LoopEvent → Bool
  | .sleep => true
  | .yieldPoint => true
  | _ => false

/-- Scans a trace; the accumulator is `none` before the first invocation and
`some b` afterwards, `b` recording whether a suspension has occurred since
the last invocation.  Returns `true` iff every pair of consecutive
invocations has a suspension step strictly between them. -/
def suspendScan : Option Bool → List LoopEvent → Bool
  | _, [] => true
  | st, e :: rest =>
    if e.isInvoke then
      match st with
      | none => suspendScan (some false) rest
      | some b => b && suspendScan (some false) rest
    else
      match st with
      | none => suspendScan none rest
      | some b => suspendScan (some (b || e.isSuspend)) rest

/-- A suspension step occurs between every two consecutive dispatcher
invocations of the trace. -/
def suspendsBetweenInvokes (tr : List LoopEvent) : Bool :=
  suspendScan none tr

/-- Counterexample to C6: a concrete synchronous run (dispatcher always
`TryAgain`, no timeout, two iterations) performs two consecutive dispatcher
invocations with no suspension step between them — only the diagnostic log
separates them — and its async counterpart produces the identical trace. -/
theorem chat_retry_loop_spins_counterexample :
    suspendsBetweenInvokes
      (ChatCompletion.createTrace
        (fun _ => DispatchOutcome.tryAgain : Nat → DispatchOutcome Nat Unit)
        (fun _ => (0 : ℚ)) none 0 0 2) = false ∧
    (ChatCompletion.createTrace
        (fun _ => DispatchOutcome.tryAgain : Nat → DispatchOutcome Nat Unit)
        (fun _ => (0 : ℚ)) none 0 0 2).countP
      (fun e => e.isInvoke) = 2 ∧
    ChatCompletion.acreateTrace
        (fun _ => DispatchOutcome.tryAgain : Nat → DispatchOutcome Nat Unit)
        (fun _ => (0 : ℚ)) none 0 0 2 =
      [LoopEvent.invoke 0, LoopEvent.logInfo,
       LoopEvent.invoke 1, LoopEvent.logInfo] := by
  refine ⟨?_, ?_, ?_⟩ <;>
    simp [ChatCompletion.createTrace, ChatCompletion.acreateTrace,
      suspendsBetweenInvokes, suspendScan, LoopEvent.isInvoke,
      LoopEvent.isSuspend, List.countP, List.countP.go]

/-- C6 as amended: neither retry loop ever suspends between attempts: no
execution of `ChatCompletion.create` or `ChatCompletion.acreate` emits a
sleep or yield event; after catching `TryAgain` (and checking the deadline)
the loop logs a diagnostic and immediately re-invokes the dispatcher. -/
theorem chat_retry_loop_never_suspends {α ε : Type}
    (dispatch : Nat → DispatchOutcome α ε) (checkTime : Nat → ℚ)
    (timeout : Option ℚ) (start : ℚ) (k fuel : Nat) :
    (∀ e ∈ ChatCompletion.createTrace dispatch checkTime timeout start k fuel,
      e.isSuspend = false) ∧
    (∀ e ∈ ChatCompletion.acreateTrace dispatch checkTime timeout start k fuel,
      e.isSuspend = false) := by
  constructor
  · induction fuel generalizing k timeout with
    | zero => intro e he; simp [ChatCompletion.createTrace] at he
    | succ f ih =>
      intro e he
      cases hd : dispatch k with
      | success v =>
        simp only [ChatCompletion.createTrace, hd, List.mem_cons,
          List.not_mem_nil, or_false] at he
        subst he; rfl
      | otherError err =>
        simp only [ChatCompletion.createTrace, hd, List.mem_cons,
          List.not_mem_nil, or_false] at he
        subst he; rfl
      | tryAgain =>
        cases timeout with
        | none =>
          simp only [ChatCompletion.createTrace, hd, List.mem_cons] at he
          rcases he with rfl | rfl | he
          · rfl
          · rfl
          · exact ih none (k + 1) e he
        | some t =>
          by_cases hc : checkTime k > start + t
          · simp only [ChatCompletion.createTrace, hd, if_pos hc,
              List.mem_cons, List.not_mem_nil, or_false] at he
            subst he; rfl
          · simp only [ChatCompletion.createTrace, hd, if_neg hc,
              List.mem_cons] at he
            rcases he with rfl | rfl | he
            · rfl
            · rfl
            · exact ih (some t) (k + 1) e he
  · induction fuel generalizing k timeout with
    | zero => intro e he; simp [ChatCompletion.acreateTrace] at he
    | succ f ih =>
      intro e he
      cases hd : dispatch k with
      | success v =>
        simp only [ChatCompletion.acreateTrace, hd, List.mem_cons,
          List.not_mem_nil, or_false] at he
        subst he; rfl
      | otherError err =>
        simp only [ChatCompletion.acreateTrace, hd, List.mem_cons,
          List.not_mem_nil, or_false] at he
        subst he; rfl
      | tryAgain =>
        cases timeout with
        | none =>
          simp only [ChatCompletion.acreateTrace, hd, List.mem_cons] at he
          rcases he with rfl | rfl | he
          · rfl
          · rfl
          · exact ih none (k + 1) e he
        | some t =>
          by_cases hc : checkTime k > start + t
          · simp only [ChatCompletion.acreateTrace, hd, if_pos hc,
              List.mem_cons, List.not_mem_nil, or_false] at he
            subst he; rfl
          · simp only [ChatCompletion.acreateTrace, hd, if_neg hc,
              List.mem_cons] at he
            rcases he with rfl | rfl | he
            · rfl
            · rfl
            · exact ih (some t) (k + 1) e he

/-- `Moderation.VALID_MODEL_NAMES` (moderation.py, line 7). -/
def Moderation.VALID_MODEL_NAMES : List String :=
  ["text-moderation-stable", "text-moderation-latest"]

/-- `Moderation.get_url` (moderation.py, lines 9-11). -/
def Moderation.get_url : String := "/moderations"

/-- `Moderation._prepare_create` (moderation.py, lines 13-25): reject a
non-None model outside `VALID_MODEL_NAMES` with a `ValueError`; otherwise
build `params` as the insertion-ordered mapping with key "input" and, only
when a model was given, key "model".  The mapping is embedded as its ordered
list of key/value pairs. -/
def Moderation.prepare_create (input : String) (model : Option String) :
    Except String (List (String × String)) :=
  match model with
  | some m =>
    if m ∉ Moderation.VALID_MODEL_NAMES then
      .error "The parameter model should be chosen from the valid model names and it is default to be None."
    else
      .ok [("input", input), ("model", m)]
  | none => .ok [("input", input)]

/-- An HTTP request as handed to the dispatcher: method, URL and body
parameters. -/
structure ApiRequest where
  method : String
  url : String
  params : List (String × String)
  deriving DecidableEq, Repr

/-- `Moderation.create` (moderation.py, lines 27-35): run
`_prepare_create`, then dispatch `request("post", get_url(), params)`.
`Except.error` is a raise before any dispatch; `Except.ok` carries the
request that is dispatched. -/
def Moderation.create (input : String) (model : Option String) :
    Except String ApiRequest :=
  match Moderation.prepare_create input model with
  | .error e => .error e
  | .ok params => .ok ⟨"post", Moderation.get_url, params⟩

/-- `Moderation.acreate` (moderation.py, lines 37-45): run
`_prepare_create`, then dispatch `arequest("post", get_url(), params)`. -/
def Moderation.acreate (input : String) (model : Option String) :
    Except String ApiRequest :=
  match Moderation.prepare_create input model with
  | .error e => .error e
  | .ok params => .ok ⟨"post", Moderation.get_url, params⟩

/-- C4: `Moderation.create` with a model outside the valid set raises the
local validation error, so no request reaches the dispatcher; with
`model = None` or a valid model name no such error is raised and a request
is produced. -/
theorem moderation_model_validation (input : String) (m : String)
    (hm : m ∉ Moderation.VALID_MODEL_NAMES) :
    (∃ e, Moderation.create input (some m) = .error e) ∧
    (∃ r, Moderation.create input none = .ok r) ∧
    (∀ m2 ∈ Moderation.VALID_MODEL_NAMES,
      ∃ r, Moderation.create input (some m2) = .ok r) := by
  refine ⟨?_, ?_, ?_⟩
  · refine ⟨"The parameter model should be chosen from the valid model names and it is default to be None.", ?_⟩
    simp [Moderation.create, Moderation.prepare_create, hm]
  · exact ⟨⟨"post", Moderation.get_url, [("input", input)]⟩, rfl⟩
  · intro m2 hm2
    refine ⟨⟨"post", Moderation.get_url, [("input", input), ("model", m2)]⟩, ?_⟩
    simp [Moderation.create, Moderation.prepare_create, hm2]

/-- Concrete instance of C4: model "not-a-real-model" is rejected with no
dispatch, while "text-moderation-stable" and `None` go through. -/
theorem moderation_model_validation_witness :
    (∃ e, Moderation.create "hello" (some "not-a-real-model") = .error e) ∧
    (∃ r, Moderation.create "hello" none = .ok r) ∧
    (∀ m2 ∈ Moderation.VALID_MODEL_NAMES,
      ∃ r, Moderation.create "hello" (some m2) = .ok r) :=
  moderation_model_validation "hello" "not-a-real-model" (by decide)

/-- C9: for every input, `Moderation.create` and `Moderation.acreate` with
`model = None` produce a POST to "/moderations" whose body is exactly the
one-entry mapping input ↦ the input string (no "model" key), and with a
valid model `m` exactly the two-entry mapping with "input" and "model". -/
theorem moderation_request_shape (input : String) :
    Moderation.create input none =
      .ok ⟨"post", "/moderations", [("input", input)]⟩ ∧
    Moderation.acreate input none =
      .ok ⟨"post", "/moderations", [("input", input)]⟩ ∧
    (∀ m ∈ Moderation.VALID_MODEL_NAMES,
      Moderation.create input (some m) =
        .ok ⟨"post", "/moderations", [("input", input), ("model", m)]⟩ ∧
      Moderation.acreate input (some m) =
        .ok ⟨"post", "/moderations", [("input", input), ("model", m)]⟩) := by
  refine ⟨rfl, rfl, ?_⟩
  intro m hm
  constructor <;>
    simp [Moderation.create, Moderation.acreate, Moderation.prepare_create,
      Moderation.get_url, hm]

/-- C7: the synchronous and asynchronous paths are behaviourally equivalent.
For every dispatcher-outcome sequence, clock, timeout, start time and fuel,
`ChatCompletion.acreate` produces the same run result (same value or same
propagated error, after the same number of dispatcher invocations) as
`ChatCompletion.create`; and `Moderation.acreate` builds the identical
request (or raises the identical error) as `Moderation.create` on every
input. -/
theorem sync_async_equivalence :
    (∀ (α ε : Type) (dispatch : Nat → DispatchOutcome α ε)
      (checkTime : Nat → ℚ) (timeout : Option ℚ) (start : ℚ) (k fuel : Nat),
      ChatCompletion.acreate dispatch checkTime timeout start k fuel =
        ChatCompletion.create dispatch checkTime timeout start k fuel) ∧
    (∀ (input : String) (model : Option String),
      Moderation.acreate input model = Moderation.create input model) := by
  constructor
  · intro α ε dispatch checkTime timeout start k fuel
    induction fuel generalizing k timeout with
    | zero => rfl
    | succ f ih =>
      simp only [ChatCompletion.acreate, ChatCompletion.create]
      cases dispatch k
      · rfl
      · cases timeout with
        | none => exact ih none (k + 1)
        | some t =>
          by_cases hc : checkTime k > start + t
          · simp [hc]
          · simp only [if_neg hc]
            exact ih (some t) (k + 1)
      · rfl
  · intro input model
    rfl

/-- Python truthiness of the `id` argument: `if id:` (logger.py, line 51) is
true iff `id` is neither `None` nor the empty string. -/
def pyTruthyOptStr : Option String → Bool
  | none => false
  | some s => s ≠ ""

/-- Python list slicing `xs[s:]` for an integer start `s`: a negative start
counts from the end, clamped to the list. -/
def pySliceFrom {β : Type} (s : Int) (xs : List β) : List β :=
  let len : Int := xs.length
  let start : Int := if s < 0 then max (len + s) 0 else min s len
  xs.drop start.toNat

/-- Collaborators of `Logger.sync` (logger.py): whether the `wandb` import
succeeded, `FineTune.retrieve`, `FineTune.list` (embedded as the returned
mapping: its ordered key/value pairs, the "data" key carrying either a job
list or Python `None`), and `Logger._log_fine_tune`, abstracted to whether
it logged the job (its `True`/`None` return, with `None` as `false`).  `Job`
is the abstract type of fine-tune job records. -/
structure SyncEnv (Job : Type) where
  wandbAvailable : Bool
  retrieve : String → Job
  listing : List (String × Option (List Job))
  logFineTune : Job → Bool

/-- Externally observable actions of one `Logger.sync` call. -/
inductive SyncEffect (Job : Type) where
  | retrieveCall (id : String)
  | listCall
  | logFineTuneCall (job : Job)
  | printMsg (msg : String)
  deriving DecidableEq, Repr

/-- The tail of `Logger.sync` (logger.py, lines 53-62 after the job list is
fixed): compute `show_warnings` (`False if id is None and n_jobs is None
else True`), call `_log_fine_tune` on each job oldest-first, print the
no-new-success message when warnings are off and nothing was logged, and
return the completion string. -/
def Logger.syncLogPhase {Job : Type} (env : SyncEnv Job)
    (fine_tunes : List Job) (id : Option String) (n_jobs : Option Int)
    (effs : List (SyncEffect Job)) :
    Option String × List (SyncEffect Job) :=
  let show_warnings := if id = none ∧ n_jobs = none then false else true
  let fine_tune_logged := fine_tunes.map env.logFineTune
  let effs2 := effs ++ fine_tunes.map (fun j => SyncEffect.logFineTuneCall j)
  let effs3 :=
    if show_warnings = false ∧ fine_tune_logged.any (fun b => b) = false then
      effs2 ++ [SyncEffect.printMsg "No new successful fine-tune were found"]
    else effs2
  (some "🎉 wandb log completed successfully", effs3)

/-- `Logger.sync` (logger.py, lines 29-62): return `None` at once when the
`wandb` import failed; with a truthy `id`, retrieve that job (the
`pop("events")` is invisible on the abstract job type) and log it; otherwise
list the jobs, return `None` after a diagnostic print when the listing is
empty (falsy) or its "data" entry is missing or `None`, and otherwise log
the last `n_jobs` entries (all of them when `n_jobs` is `None`).  The result
pairs the returned value with the trace of collaborator calls and prints;
`project`, `entity`, `force` and the kwargs are forwarded verbatim into
`_log_fine_tune`/`wandb.init` and are absorbed by the `logFineTune`
abstraction. -/
def Logger.sync {Job : Type} (env : SyncEnv Job) (id : Option String)
    (n_jobs : Option Int) : Option String × List (SyncEffect Job) :=
  if env.wandbAvailable = false then (none, [])
  else if pyTruthyOptStr id then
    Logger.syncLogPhase env [env.retrieve (id.getD "")] id n_jobs
      [SyncEffect.retrieveCall (id.getD "")]
  else
    if env.listing.isEmpty || ((env.listing.lookup "data").join).isNone then
      (none, [SyncEffect.listCall,
        SyncEffect.printMsg "No fine-tune jobs have been retrieved"])
    else
      let data := ((env.listing.lookup "data").join).getD []
      let fine_tunes :=
        match n_jobs with
        | some n => pySliceFrom (-n) data
        | none => data
      Logger.syncLogPhase env fine_tunes id n_jobs [SyncEffect.listCall]

/-- C10: when `wandb` is unavailable `Logger.sync` returns `None` for every
argument combination with no collaborator call at all (in particular no
`FineTune.retrieve` or `FineTune.list`) and nothing to raise; and when the
jobs are listed but the listing is empty or has no "data" entry, it returns
`None` with no `_log_fine_tune` call, only the list call and the diagnostic
print. -/
theorem logger_sync_early_return {Job : Type} (env : SyncEnv Job)
    (id : Option String) (n_jobs : Option Int) :
    (env.wandbAvailable = false → Logger.sync env id n_jobs = (none, [])) ∧
    (env.wandbAvailable = true → pyTruthyOptStr id = false →
      (env.listing.isEmpty || ((env.listing.lookup "data").join).isNone)
        = true →
      Logger.sync env id n_jobs =
        (none, [SyncEffect.listCall,
          SyncEffect.printMsg "No fine-tune jobs have been retrieved"])) := by
  constructor
  · intro h
    simp [Logger.sync, h]
  · intro ha hid hl
    unfold Logger.sync
    rw [ha, hid, hl]
    simp

/-- Concrete instances of C10: an environment without `wandb` returns `None`
with an empty effect trace, and one with `wandb` but an empty listing
returns `None` with only the list call and the diagnostic print. -/
theorem logger_sync_early_return_witness :
    Logger.sync (⟨false, fun _ => 0, [], fun _ => false⟩ : SyncEnv Nat)
        none none = (none, []) ∧
    Logger.sync (⟨true, fun _ => 0, [], fun _ => false⟩ : SyncEnv Nat)
        none none =
      (none, [SyncEffect.listCall,
        SyncEffect.printMsg "No fine-tune jobs have been retrieved"]) :=
  ⟨(logger_sync_early_return
      (⟨false, fun _ => 0, [], fun _ => false⟩ : SyncEnv Nat)
      none none).1 rfl,
   (logger_sync_early_return
      (⟨true, fun _ => 0, [], fun _ => false⟩ : SyncEnv Nat)
      none none).2 rfl rfl rfl⟩

/-- Concrete instance of C5: with no timeout and a dispatcher that always
raises `TryAgain`, six units of fuel produce six invocations and a loop that
is still running — in particular not a propagated `TryAgain`. -/
theorem chat_create_no_timeout_unbounded_retry_witness :
    ChatCompletion.create
      (fun _ => DispatchOutcome.tryAgain : Nat → DispatchOutcome Nat Unit)
      (fun _ => (0 : ℚ)) none 0 0 6 ≠ RunResult.raisedTryAgain 6 ∧
    ChatCompletion.create
      (fun _ => DispatchOutcome.tryAgain : Nat → DispatchOutcome Nat Unit)
      (fun _ => (0 : ℚ)) none 0 0 6 = RunResult.outOfFuel 6 :=
  ⟨(chat_create_no_timeout_unbounded_retry
      (fun _ => DispatchOutcome.tryAgain : Nat → DispatchOutcome Nat Unit)
      (fun _ => (0 : ℚ)) 0).1 6 6,
   (chat_create_no_timeout_unbounded_retry
      (fun _ => DispatchOutcome.tryAgain : Nat → DispatchOutcome Nat Unit)
      (fun _ => (0 : ℚ)) 0).2 (fun _ => rfl) 6⟩

/-- Concrete instance of the amended C6: the diagnostic-log event found in a
concrete two-iteration trace is not a suspension step. -/
theorem chat_retry_loop_never_suspends_witness :
    LoopEvent.isSuspend LoopEvent.logInfo = false :=
  (chat_retry_loop_never_suspends
    (fun _ => DispatchOutcome.tryAgain : Nat → DispatchOutcome Nat Unit)
    (fun _ => (0 : ℚ)) none 0 0 2).1 LoopEvent.logInfo
    (by simp [ChatCompletion.createTrace])

/-- Concrete instance of C9: input "abc" with model "text-moderation-stable"
produces exactly the POST to "/moderations" with the input and model keys. -/
theorem moderation_request_shape_witness :
    Moderation.create "abc" (some "text-moderation-stable") =
      .ok ⟨"post", "/moderations",
        [("input", "abc"), ("model", "text-moderation-stable")]⟩ :=
  ((moderation_request_shape "abc").2.2 "text-moderation-stable"
    (by decide)).1
